import Mathlib

/-!
Verification development for the replica proposal and applied-result pipeline
of `pkg/storage/replica_proposal.go`.

The Go functions are shallowly embedded as pure Lean functions.  Mutable
replica state (`r.mu.…`) becomes an explicit `ReplicaMuState` that is threaded
through each operation; calls that can terminate the process via `log.Fatalf`
or `panic` are modelled by returning `Except Fatal …`.  External collaborators
(the storage engine, sideloaded storage, queues, gossip, the stopper) do not
live in the corpus; where one of their outcomes influences control flow or
replica state it is supplied as an explicit environment field, and pure
fire-and-forget effects (queue pokes, gossip, metrics publication, logging)
are elided with a comment at the corresponding point.
-/

/-- MVCC statistics. Modelled from the spec: the external `enginepb.MVCCStats`
struct (and its field-for-field delta form `enginepb.MVCCStatsDelta`; the
conversions `ToStats`/`ToStatsDelta` between the two are field-preserving and
are modelled as the identity).  Only a representative pair of counters is
kept; the pipeline treats the struct opaquely (add, compare with zero). -/
structure MVCCStats where
  liveBytes : Int
  keyCount : Int
deriving DecidableEq

/-- The zero value `enginepb.MVCCStats{}`. -/
def MVCCStats.empty : MVCCStats := ⟨0, 0⟩

/-- Componentwise addition, as in `(*MVCCStats).Add`. -/
def MVCCStats.add (a b : MVCCStats) : MVCCStats :=
  ⟨a.liveBytes + b.liveBytes, a.keyCount + b.keyCount⟩

/-- The external `roachpb.RaftTruncatedState` (index/term of the last
truncated Raft log entry). -/
structure RaftTruncatedState where
  index : Nat
  term : Nat
deriving DecidableEq

/-- The external `roachpb.Lease`.  Modelled from the spec: a monotonic
sequence number, a holder identity (store + replica) and a start timestamp.
The `Equivalent` predicate it carries is passed around as an explicit
function argument `equiv` below, since its definition is external to the
corpus. -/
structure Lease where
  sequence : Nat
  start : Nat
  replicaID : Nat
  storeID : Nat
deriving DecidableEq

/-- The zero value `roachpb.Lease{}`. -/
def Lease.empty : Lease := ⟨0, 0, 0, 0⟩

/-- One entry of the replica's checksum map (`ReplicaChecksum`).  Notification
channels are identified by a natural number; `make(chan struct{})` is
modelled as drawing the next unused identifier.  The Go zero `time.Time`
gc timestamp is modelled as `0` (unset). -/
structure ReplicaChecksum where
  started : Bool
  notify : Nat
  checksum : Option (List Nat)
  gcTimestamp : Nat
deriving DecidableEq

/-- The external `storagepb.ComputeChecksum` command payload. -/
structure ComputeChecksumPayload where
  ChecksumID : Nat
  Version : Nat
  SaveSnapshot : Bool
  Mode : Nat
  Checkpoint : Bool
deriving DecidableEq

/-- The external `storagepb.ReplicatedEvalResult_AddSSTable` payload: a byte
payload plus the CRC stored at proposal time. -/
structure ReplicatedEvalResult_AddSSTable where
  Data : List Nat
  CRC32 : Nat
deriving DecidableEq

/-- The external `storagepb.ReplicaState` sub-struct of a replicated result.
Fields the corpus never touches for a given command keep their value and
therefore flow into the end-of-apply exhaustion check. -/
structure ReplicaState where
  RaftAppliedIndex : Nat
  LeaseAppliedIndex : Nat
  Desc : Option Nat
  Lease : Option Lease
  TruncatedState : Option RaftTruncatedState
  GCThreshold : Option Nat
  TxnSpanGCThreshold : Option Nat
  Stats : Option MVCCStats
  UsingAppliedStateKey : Bool
deriving DecidableEq

/-- The zero value `storagepb.ReplicaState{}`. -/
def ReplicaState.empty : ReplicaState :=
  ⟨0, 0, none, none, none, none, none, none, false⟩

/-- The external `storagepb.ReplicatedEvalResult`: the replicated half of an
evaluation, a flat struct of optional side-effect fields.  Payloads whose
internals the corpus never inspects (split, merge, change-replicas,
suggested compactions) are opaque numbers. -/
structure ReplicatedEvalResult where
  State : Option ReplicaState
  Split : Option Nat
  Merge : Option Nat
  ComputeChecksum : Option ComputeChecksumPayload
  IsLeaseRequest : Bool
  Timestamp : Nat
  DeprecatedDelta : Option MVCCStats
  Delta : MVCCStats
  ChangeReplicas : Option Nat
  RaftLogDelta : Int
  AddSSTable : Option ReplicatedEvalResult_AddSSTable
  SuggestedCompactions : List Nat
  PrevLeaseProposal : Option Nat
  BlockReads : Bool
deriving DecidableEq

/-- The zero value `storagepb.ReplicatedEvalResult{}`. -/
def ReplicatedEvalResult.empty : ReplicatedEvalResult :=
  ⟨none, none, none, none, false, 0, none, MVCCStats.empty, none, 0, none, [], none, false⟩

/-- An ended-transaction record carried by the local result; `always` is the
flag consulted by `DetachEndTxns(alwaysOnly)`. -/
structure EndTxnIntent where
  always : Bool
  txn : Nat
deriving DecidableEq

/-- The external `result.LocalResult`: the proposer-only half of an
evaluation.  Reply, intents, transactions and metrics payloads are opaque. -/
structure LocalResult where
  Reply : Option Nat
  Intents : Option (List Nat)
  EndTxns : Option (List EndTxnIntent)
  GossipFirstRange : Bool
  MaybeAddToSplitQueue : Bool
  MaybeGossipSystemConfig : Bool
  MaybeGossipNodeLiveness : Option Nat
  Metrics : Option Nat
  UpdatedTxns : Option (List Nat)
deriving DecidableEq

/-- The zero value `result.LocalResult{}`. -/
def LocalResult.empty : LocalResult :=
  ⟨none, none, none, false, false, false, none, none, none⟩

/-- Modelled from the spec: `result.LocalResult.DetachIntents` (external to
the corpus) removes and returns the unresolved-intents side list. -/
def LocalResult.detachIntents (l : LocalResult) : List Nat :=
  match l.Intents with
  | none => []
  | some xs => xs

/-- Modelled from the spec: `result.LocalResult.DetachEndTxns(alwaysOnly)`
(external to the corpus) removes and returns the ended-transaction records,
restricted to the always-run ones when `alwaysOnly` is set. -/
def LocalResult.detachEndTxns (alwaysOnly : Bool) (l : LocalResult) : List EndTxnIntent :=
  (match l.EndTxns with
   | none => []
   | some xs => xs).filter (fun e => !alwaysOnly || e.always)

/-- The ways the corpus can terminate the process (`log.Fatalf` / `panic`). -/
inductive Fatal where
  | unhandledReplicatedField
  | unhandledLocalField
  | localIntentsNotNil
  | localEndTxnsNotNil
  | mergeFailed
  | mergeWatchFailed
  | leaseSequenceInversion
  | leaseIdenticalSequenceDiffers
  | leaseSequenceJump
  | duplicateChecksum
  | txnInNonTxnBatch
deriving DecidableEq

/-- The mutable per-replica state touched by the corpus: `r.mu.state` fields,
Raft-log-size accounting, the checksum map, and the store-level bits the
lease path writes (timestamp-cache low water, txn-wait-queue enablement).
`nextChan` is the next unused notification-channel identifier. -/
structure ReplicaMuState where
  replicaID : Nat
  storeID : Nat
  stats : MVCCStats
  raftAppliedIndex : Nat
  leaseAppliedIndex : Nat
  truncatedState : Option RaftTruncatedState
  usingAppliedStateKey : Bool
  desc : Nat
  lease : Lease
  gcThreshold : Nat
  txnSpanGCThreshold : Nat
  raftLogSize : Int
  raftLogLastCheckSize : Int
  tsCacheLowWater : Nat
  txnWaitQueueEnabled : Bool
  checksums : List (Nat × ReplicaChecksum)
  nextChan : Nat
deriving DecidableEq

/-- Lookup in the checksum map (`r.mu.checksums[id]`). -/
def lookupChecksum : List (Nat × ReplicaChecksum) → Nat → Option ReplicaChecksum
  | [], _ => none
  | (k, v) :: t, id => if k = id then some v else lookupChecksum t id

/-- Store into the checksum map (`r.mu.checksums[id] = v`). -/
def setChecksum : List (Nat × ReplicaChecksum) → Nat → ReplicaChecksum → List (Nat × ReplicaChecksum)
  | [], id, v => [(id, v)]
  | (k, w) :: t, id, v => if k = id then (id, v) :: t else (k, w) :: setChecksum t id v

/-- `Replica.gcOldChecksumEntriesLocked`: delete every entry whose gc
timestamp is valid (set, i.e. non-zero) and strictly before `now`. -/
def gcOldChecksumEntriesLocked (now : Nat) (m : List (Nat × ReplicaChecksum)) :
    List (Nat × ReplicaChecksum) :=
  m.filter (fun e => if e.2.gcTimestamp ≠ 0 ∧ e.2.gcTimestamp < now then false else true)

/-- `Replica.computeChecksumPostApply`, up to the release of `r.mu`: choose
the notification channel (fresh if the ID is unknown, the waiting
collector's if an unstarted entry exists, fatal on a started entry), GC old
entries, and install a started entry with nil checksum and unset gc
timestamp.  The remainder of the Go function (version check, engine
snapshot, optional checkpoint, async SHA-512 task) acts only on external
collaborators and is elided.  Returns the updated state and the chosen
notification channel. -/
def computeChecksumPostApply (now : Nat) (s : ReplicaMuState) (cc : ComputeChecksumPayload) :
    Except Fatal (ReplicaMuState × Nat) :=
  let chosen : Except Fatal (Nat × ReplicaMuState) :=
    match lookupChecksum s.checksums cc.ChecksumID with
    | none =>
        -- There is no record of this ID. Make a new notification.
        .ok (s.nextChan, { s with nextChan := s.nextChan + 1 })
    | some c =>
        if !c.started then
          -- A CollectChecksumRequest is waiting on the existing notification.
          .ok (c.notify, s)
        else
          .error .duplicateChecksum
  match chosen with
  | .error f => .error f
  | .ok (notify, s) =>
      let s := { s with checksums := gcOldChecksumEntriesLocked now s.checksums }
      -- Create an entry with checksum == nil and gcTimestamp unset.
      let entry : ReplicaChecksum := ⟨true, notify, none, 0⟩
      let s := { s with checksums := setChecksum s.checksums cc.ChecksumID entry }
      .ok (s, notify)

/-- Outcomes of external collaborators consulted by `leasePostApply`:
whether `r.maybeWatchForMerge` succeeds. -/
structure LeaseEnv where
  mergeWatchOk : Bool
deriving DecidableEq

/-- The sequence-discipline sanity check of `leasePostApply` (the `switch`
over `prevLease.Sequence, newLease.Sequence`), active only once the previous
sequence is non-zero.  Returns the fatal error it would raise, if any. -/
def leaseSequenceCheck (equiv : Lease → Lease → Bool) (prevLease newLease : Lease)
    (permitJump : Bool) : Option Fatal :=
  if prevLease.sequence ≠ 0 then
    -- We're at a version that supports lease sequence numbers.
    if newLease.sequence < prevLease.sequence then
      some .leaseSequenceInversion
    else if newLease.sequence = prevLease.sequence then
      if !equiv prevLease newLease then some .leaseIdenticalSequenceDiffers else none
    else if newLease.sequence = prevLease.sequence + 1 then
      -- Lease sequence incremented by 1. Expected case.
      none
    else if !permitJump then
      some .leaseSequenceJump
    else
      none
  else
    none

/-- `Replica.leasePostApply`: install a new range lease.  State-relevant
steps are embedded (merge-watch fatal, timestamp-cache low water, the
sequence discipline, the lease install, txn-wait-queue enable/disable);
pure external effects (logging, gossip, lease-renewer signal, Raft
leadership transfer, capacity gossip, request-count reset, lease history)
are elided at their position in the control flow. -/
def leasePostApply (equiv : Lease → Lease → Bool) (env : LeaseEnv) (s : ReplicaMuState)
    (newLease : Lease) (permitJump : Bool) : Except Fatal ReplicaMuState :=
  let prevLease := s.lease
  let iAmTheLeaseHolder : Bool := newLease.replicaID == s.replicaID
  let leaseChangingHands : Bool :=
    prevLease.storeID != newLease.storeID || prevLease.sequence != newLease.sequence
  if leaseChangingHands && iAmTheLeaseHolder && !env.mergeWatchOk then
    -- We were unable to determine whether a merge was in progress.
    .error .mergeWatchFailed
  else
    let s :=
      if leaseChangingHands && iAmTheLeaseHolder then
        -- Use the new lease's start to initialize the timestamp cache low
        -- water.  leaseholderStats.resetRequestCounts: external, elided.
        { s with tsCacheLowWater := newLease.start }
      else s
    match leaseSequenceCheck equiv prevLease newLease permitJump with
    | some f => .error f
    | none =>
        -- Install the new lease only after merge-watch and timestamp cache.
        let s := { s with lease := newLease }
        -- gossipFirstRange / renewableLeases signal: external, elided.
        let s :=
          if leaseChangingHands && !iAmTheLeaseHolder then
            -- Clear and disable the push transaction queue.
            { s with txnWaitQueueEnabled := false }
          else s
        -- maybeTransferRaftLeadership / capacity gossip: external, elided.
        let s :=
          if iAmTheLeaseHolder then
            -- MaybeGossipSystemConfig / MaybeGossipNodeLiveness / EmitMLAI:
            -- external, elided.  Make sure the push transaction queue is enabled.
            { s with txnWaitQueueEnabled := true }
          else s
        -- Lease history: external, elided.
        .ok s

/-- Outcomes of the external collaborators consulted during one
`handleReplicatedEvalResult` apply: the result of
`sideloaded.TruncateTo` (freed bytes, or an error which is only logged),
the `RaftLogQueueStaleSize` threshold constant (defined outside the
corpus), whether `store.MergeRange` succeeds, the lease environment, and
the current wall-clock time used by checksum GC. -/
structure ApplyEnv where
  truncateSideloaded : Except Unit Int
  raftLogQueueStaleSize : Int
  mergeOk : Bool
  leaseEnv : LeaseEnv
  now : Nat

/-- Truncated-state installation inside the trivial half of
`handleReplicatedEvalResult`: install the new truncated state, clear the
Raft-entry cache (external), truncate the sideloaded storage and credit the
reclaimed bytes against the Raft-log delta (a truncation error is only
logged). -/
def applyNewTruncatedState (env : ApplyEnv) (s : ReplicaMuState) (st : ReplicaState)
    (rResult : ReplicatedEvalResult) : ReplicaMuState × ReplicaState × ReplicatedEvalResult :=
  match st.TruncatedState with
  | none => (s, st, rResult)
  | some newTruncState =>
      let st := { st with TruncatedState := none }  -- for assertion
      let s := { s with truncatedState := some newTruncState }
      -- raftEntryCache.Clear: external, elided.
      let rResult :=
        match env.truncateSideloaded with
        | .error _ => rResult  -- log a loud error, but keep humming along
        | .ok size => { rResult with RaftLogDelta := rResult.RaftLogDelta - size }
      (s, st, rResult)

/-- The trivial `ReplicaState` sub-block of `handleReplicatedEvalResult`:
truncated state, a decoded zero-value legacy stats struct, and the
idempotent applied-state-key flag (cleared before the `shouldAssert`
determination only when the replica already uses the key). -/
def applyStateTrivial (env : ApplyEnv) (s : ReplicaMuState) (rResult : ReplicatedEvalResult) :
    ReplicaMuState × ReplicatedEvalResult :=
  match rResult.State with
  | none => (s, rResult)
  | some st =>
      match applyNewTruncatedState env s st rResult with
      | (s, st, rResult) =>
          -- Drop a decoded zero-value legacy stats struct sent by an old node.
          let st :=
            match st.Stats with
            | some v => if v = MVCCStats.empty then { st with Stats := none } else st
            | none => st
          -- If we're already using the AppliedStateKey there's nothing to do.
          let st :=
            if st.UsingAppliedStateKey then
              if s.usingAppliedStateKey then { st with UsingAppliedStateKey := false } else st
            else st
          (s, { rResult with State := if st = ReplicaState.empty then none else some st })

/-- The Raft-log-delta block of `handleReplicatedEvalResult`: apply the
delta additively and clamp both size counters at zero (they are not
persisted across restarts); with no delta, update the last-check mark when
accumulated growth passes the staleness threshold (the raft-log-queue poke
is external). -/
def applyRaftLogDelta (env : ApplyEnv) (s : ReplicaMuState) (rResult : ReplicatedEvalResult) :
    ReplicaMuState × ReplicatedEvalResult :=
  if rResult.RaftLogDelta ≠ 0 then
    let s := { s with raftLogSize := s.raftLogSize + rResult.RaftLogDelta,
                      raftLogLastCheckSize := s.raftLogLastCheckSize + rResult.RaftLogDelta }
    let s := if s.raftLogSize < 0 then { s with raftLogSize := 0 } else s
    let s := if s.raftLogLastCheckSize < 0 then { s with raftLogLastCheckSize := 0 } else s
    (s, { rResult with RaftLogDelta := 0 })
  else
    let checkRaftLog := s.raftLogSize - s.raftLogLastCheckSize ≥ env.raftLogQueueStaleSize
    let s := if checkRaftLog then { s with raftLogLastCheckSize := s.raftLogSize } else s
    -- raftLogQueue.MaybeAddAsync: external, elided.
    (s, rResult)

/-- The "trivial" first half of `Replica.handleReplicatedEvalResult`
(everything up to the point where `shouldAssert` is computed): zero the
observational fields, apply the MVCC stats delta and the applied indices,
run the trivial `ReplicaState` sub-block, apply and clamp the Raft-log
delta, and forward suggested compactions (external). -/
def applyTrivialPhase (env : ApplyEnv) (s : ReplicaMuState) (rResult : ReplicatedEvalResult)
    (raftAppliedIndex leaseAppliedIndex : Nat) : ReplicaMuState × ReplicatedEvalResult :=
  -- Fields for which no action is taken in this method are zeroed so that
  -- they don't trigger an assertion at the end of the method.
  let rResult := { rResult with IsLeaseRequest := false, Timestamp := 0, PrevLeaseProposal := none }
  -- BlockReads: acquiring readOnlyCmdMu is a concurrency barrier with no
  -- bearing on the embedded state; the flag is false after the conditional
  -- in either branch.
  let rResult := { rResult with BlockReads := false }
  -- Update MVCC stats and Raft portion of ReplicaState (the applied indices
  -- are assigned only when non-zero).
  let s := { s with stats := s.stats.add rResult.Delta,
                    raftAppliedIndex :=
                      if raftAppliedIndex ≠ 0 then raftAppliedIndex else s.raftAppliedIndex,
                    leaseAppliedIndex :=
                      if leaseAppliedIndex ≠ 0 then leaseAppliedIndex else s.leaseAppliedIndex }
  -- store.metrics.addMVCCStats and the split/merge queue MaybeAddAsync
  -- pokes: external, elided.
  let rResult := { rResult with Delta := MVCCStats.empty }
  match applyStateTrivial env s rResult with
  | (s, rResult) =>
      match applyRaftLogDelta env s rResult with
      | (s, rResult) =>
          -- Forward each suggested compaction to the store's compactor
          -- (external).
          (s, { rResult with SuggestedCompactions := [] })

/-- New-descriptor installation (`r.setDesc`). -/
def applyStateDesc (s : ReplicaMuState) (st : ReplicaState) : ReplicaMuState × ReplicaState :=
  match st.Desc with
  | none => (s, st)
  | some newDesc => ({ s with desc := newDesc }, { st with Desc := none })

/-- New-lease installation via `leasePostApply` with `permitJump = false`. -/
def applyStateLease (equiv : Lease → Lease → Bool) (lenv : LeaseEnv) (s : ReplicaMuState)
    (st : ReplicaState) : Except Fatal (ReplicaMuState × ReplicaState) :=
  match st.Lease with
  | none => .ok (s, st)
  | some newLease =>
      match leasePostApply equiv lenv s newLease false with
      | .error f => .error f
      | .ok s => .ok (s, { st with Lease := none })

/-- New GC threshold: assigned only when non-zero. -/
def applyStateGCThreshold (s : ReplicaMuState) (st : ReplicaState) :
    ReplicaMuState × ReplicaState :=
  match st.GCThreshold with
  | none => (s, st)
  | some newThresh =>
      let s := if newThresh ≠ 0 then { s with gcThreshold := newThresh } else s
      (s, { st with GCThreshold := none })

/-- New txn-span GC threshold: assigned only when non-zero. -/
def applyStateTxnSpanGCThreshold (s : ReplicaMuState) (st : ReplicaState) :
    ReplicaMuState × ReplicaState :=
  match st.TxnSpanGCThreshold with
  | none => (s, st)
  | some newThresh =>
      let s := if newThresh ≠ 0 then { s with txnSpanGCThreshold := newThresh } else s
      (s, { st with TxnSpanGCThreshold := none })

/-- Applied-state-key migration flag: idempotently set the in-memory flag. -/
def applyStateASK (s : ReplicaMuState) (st : ReplicaState) : ReplicaMuState × ReplicaState :=
  if st.UsingAppliedStateKey then
    ({ s with usingAppliedStateKey := true }, { st with UsingAppliedStateKey := false })
  else (s, st)

/-- Processing of the remaining `ReplicaState` sub-fields in the nontrivial
second half of `handleReplicatedEvalResult`: new descriptor, new lease, GC
thresholds, and the applied-state-key migration flag, in source order. -/
def applyStateNonTrivial (equiv : Lease → Lease → Bool) (env : ApplyEnv) (s : ReplicaMuState)
    (st : ReplicaState) : Except Fatal (ReplicaMuState × ReplicaState) :=
  match applyStateDesc s st with
  | (s, st) =>
      match applyStateLease equiv env.leaseEnv s st with
      | .error f => .error f
      | .ok (s, st) =>
          match applyStateGCThreshold s st with
          | (s, st) =>
              match applyStateTxnSpanGCThreshold s st with
              | (s, st) => .ok (applyStateASK s st)

/-- Split trigger: `splitPostApply` (creation of the right-hand replica) is
external; the field is cleared. -/
def applySplitTrigger (rResult : ReplicatedEvalResult) : ReplicatedEvalResult :=
  match rResult.Split with
  | none => rResult
  | some _ => { rResult with Split := none }

/-- Merge trigger: `store.MergeRange` failure is fatal (the in-memory state
has already diverged from the on-disk state). -/
def applyMergeTrigger (env : ApplyEnv) (rResult : ReplicatedEvalResult) :
    Except Fatal ReplicatedEvalResult :=
  match rResult.Merge with
  | none => .ok rResult
  | some _ =>
      if env.mergeOk then .ok { rResult with Merge := none }
      else .error .mergeFailed

/-- The `State` field of the nontrivial half: run the sub-field processing
and zero the pointer when the sub-struct is exhausted. -/
def applyStateNonTrivialField (equiv : Lease → Lease → Bool) (env : ApplyEnv)
    (s : ReplicaMuState) (rResult : ReplicatedEvalResult) :
    Except Fatal (ReplicaMuState × ReplicatedEvalResult) :=
  match rResult.State with
  | none => .ok (s, rResult)
  | some st =>
      match applyStateNonTrivial equiv env s st with
      | .error f => .error f
      | .ok (s, st) =>
          .ok (s, { rResult with State := if st = ReplicaState.empty then none else some st })

/-- Change-replicas: the replica-GC-queue enqueue when this store is being
removed is external; the field is cleared. -/
def applyChangeReplicas (rResult : ReplicatedEvalResult) : ReplicatedEvalResult :=
  match rResult.ChangeReplicas with
  | none => rResult
  | some _ => { rResult with ChangeReplicas := none }

/-- Compute-checksum hand-off to `computeChecksumPostApply`. -/
def applyComputeChecksum (env : ApplyEnv) (s : ReplicaMuState)
    (rResult : ReplicatedEvalResult) : Except Fatal (ReplicaMuState × ReplicatedEvalResult) :=
  match rResult.ComputeChecksum with
  | none => .ok (s, rResult)
  | some cc =>
      match computeChecksumPostApply env.now s cc with
      | .error f => .error f
      | .ok (s, _notify) => .ok (s, { rResult with ComputeChecksum := none })

/-- The nontrivial second half of `Replica.handleReplicatedEvalResult`:
split, merge (fatal on failure), the remaining `ReplicaState` sub-fields,
change-replicas, and compute-checksum, in source order (split and merge are
processed after the stats update because of the ContainsEstimates hack). -/
def applyNonTrivialPhase (equiv : Lease → Lease → Bool) (env : ApplyEnv) (s : ReplicaMuState)
    (rResult : ReplicatedEvalResult) : Except Fatal (ReplicaMuState × ReplicatedEvalResult) :=
  let rResult := applySplitTrigger rResult
  match applyMergeTrigger env rResult with
  | .error f => .error f
  | .ok rResult =>
      match applyStateNonTrivialField equiv env s rResult with
      | .error f => .error f
      | .ok (s, rResult) =>
          let rResult := applyChangeReplicas rResult
          applyComputeChecksum env s rResult

/-- `Replica.handleReplicatedEvalResult` without its final exhaustion check:
returns the updated replica state, the `shouldAssert` flag (the result is
non-zero after the trivial updates have been cleared), and the residual
result struct as it stands at the end of the method. -/
def applyReplicatedEvalResult (equiv : Lease → Lease → Bool) (env : ApplyEnv)
    (s : ReplicaMuState) (rResult : ReplicatedEvalResult)
    (raftAppliedIndex leaseAppliedIndex : Nat) :
    Except Fatal (ReplicaMuState × Bool × ReplicatedEvalResult) :=
  let sr := applyTrivialPhase env s rResult raftAppliedIndex leaseAppliedIndex
  let s := sr.1
  let rResult := sr.2
  -- The remaining actions are "nontrivial" and may have large effects on
  -- the in-memory and on-disk ReplicaStates.
  let shouldAssert : Bool := if rResult = ReplicatedEvalResult.empty then false else true
  match applyNonTrivialPhase equiv env s rResult with
  | .error f => .error f
  | .ok (s, rResult) => .ok (s, shouldAssert, rResult)

/-- `Replica.handleReplicatedEvalResult`: apply the replicated side effects
and crash on any residual non-zero field. -/
def handleReplicatedEvalResult (equiv : Lease → Lease → Bool) (env : ApplyEnv)
    (s : ReplicaMuState) (rResult : ReplicatedEvalResult)
    (raftAppliedIndex leaseAppliedIndex : Nat) : Except Fatal (ReplicaMuState × Bool) :=
  match applyReplicatedEvalResult equiv env s rResult raftAppliedIndex leaseAppliedIndex with
  | .error f => .error f
  | .ok (s, shouldAssert, rResult) =>
      if rResult = ReplicatedEvalResult.empty then .ok (s, shouldAssert)
      else
        -- unhandled field in ReplicatedEvalResult
        .error .unhandledReplicatedField

/-- A sequence of applies through `handleReplicatedEvalResult`, one
environment/result/indices tuple per committed command. -/
def handleReplicatedEvalResultSeq (equiv : Lease → Lease → Bool) :
    List (ApplyEnv × ReplicatedEvalResult × Nat × Nat) → ReplicaMuState →
    Except Fatal ReplicaMuState
  | [], s => .ok s
  | (env, rResult, rai, lai) :: rest, s =>
      match handleReplicatedEvalResult equiv env s rResult rai lai with
      | .error f => .error f
      | .ok (s, _) => handleReplicatedEvalResultSeq equiv rest s

/-- `Replica.handleLocalEvalResult` without its final exhaustion check:
zero the reply up front, crash if intents or end-txns were not detached by
the caller, run the proposer-side triggers (gossip, queue pokes, metrics,
txn-waiter updates — all external), and return the residual struct.  NB:
the source clears `UpdatedTxns` inside the iteration over the list, so a
non-nil empty list is never cleared. -/
def applyLocalEvalResult (lResult : LocalResult) : Except Fatal LocalResult :=
  -- Fields for which no action is taken in this method are zeroed.
  let lResult := { lResult with Reply := none }
  -- The caller is required to detach and handle intents.
  if lResult.Intents ≠ none then .error .localIntentsNotNil
  else if lResult.EndTxns ≠ none then .error .localEndTxnsNotNil
  else
    let lResult :=
      if lResult.GossipFirstRange then { lResult with GossipFirstRange := false } else lResult
    let lResult :=
      if lResult.MaybeAddToSplitQueue then { lResult with MaybeAddToSplitQueue := false } else lResult
    let lResult :=
      if lResult.MaybeGossipSystemConfig then { lResult with MaybeGossipSystemConfig := false } else lResult
    let lResult :=
      match lResult.MaybeGossipNodeLiveness with
      | none => lResult
      | some _ => { lResult with MaybeGossipNodeLiveness := none }
    let lResult :=
      match lResult.Metrics with
      | none => lResult
      | some _ => { lResult with Metrics := none }
    let lResult :=
      match lResult.UpdatedTxns with
      | none => lResult
      | some txns =>
          -- `lResult.UpdatedTxns = nil` sits inside the `for` loop body.
          if txns.isEmpty then lResult else { lResult with UpdatedTxns := none }
    .ok lResult

/-- `Replica.handleLocalEvalResult`: apply the proposer-only side effects
and crash on any residual non-zero field. -/
def handleLocalEvalResult (lResult : LocalResult) : Except Fatal Unit :=
  match applyLocalEvalResult lResult with
  | .error f => .error f
  | .ok res =>
      if res = LocalResult.empty then .ok ()
      else
        -- unhandled field in LocalEvalResult
        .error .unhandledLocalField

/-- The external `roachpb.Error`: the corpus only consults whether it
carries a transaction; `code` keeps distinct errors distinguishable. -/
structure PErr where
  txn : Option Nat
  code : Nat
deriving DecidableEq

/-- `proposalResult`: the union-typed payload sent on a proposal's done
channel. -/
structure proposalResult where
  Reply : Option Nat
  Err : Option PErr
  Intents : List Nat
  EndTxns : List EndTxnIntent
deriving DecidableEq

/-- `ProposalData`, restricted to the three once-guarded resources consulted
by `finishApplication`: whether the `endCmds` latch-release hook, the
tracing span, and the done-channel reference are still set. -/
structure ProposalData where
  endCmds : Bool
  sp : Bool
  doneCh : Bool
deriving DecidableEq

/-- Observable effects of one `finishApplication` call: how often the
`endCmds.done` hook ran, how often `tracing.FinishSpan` ran, and how often
a value was sent on the done channel. -/
structure FinishEffects where
  endCmdsDone : Nat
  spanFinishes : Nat
  doneChSends : Nat
deriving DecidableEq

/-- `ProposalData.signalProposalResult`: send on `doneCh` if the reference
is still set, then clear the reference.  Returns the value sent, if any. -/
def signalProposalResult (proposal : ProposalData) (pr : proposalResult) :
    ProposalData × Option proposalResult :=
  if proposal.doneCh then ({ proposal with doneCh := false }, some pr) else (proposal, none)

/-- `ProposalData.finishApplication`: invoke and clear the `endCmds` hook,
finish the tracing span if one is attached (NB: the source does not clear
`proposal.sp` here), then signal the proposal result. -/
def finishApplication (proposal : ProposalData) (pr : proposalResult) : ProposalData × FinishEffects :=
  let pe : ProposalData × Nat :=
    if proposal.endCmds then ({ proposal with endCmds := false }, 1) else (proposal, 0)
  let proposal := pe.1
  let endCmdsDone := pe.2
  -- tracing.FinishSpan(proposal.sp); the sp reference stays set.
  let spanFinishes := if proposal.sp then 1 else 0
  let ps := signalProposalResult proposal pr
  (ps.1, ⟨endCmdsDone, spanFinishes, match ps.2 with | some _ => 1 | none => 0⟩)

/-- One bit-round of the reflected CRC-32C division (polynomial
0x82F63B78). -/
def crc32cRound (crc : Nat) : Nat :=
  if crc % 2 = 1 then Nat.xor (crc / 2) 0x82F63B78 else crc / 2

/-- Modelled from the spec: `util.CRC32` (external to the corpus) computes
the CRC-32 checksum of a byte payload with the Castagnoli polynomial;
plain bitwise form of the reflected algorithm. -/
def CRC32 (data : List Nat) : Nat :=
  Nat.xor (data.foldl (fun crc b => crc32cRound^[8] (Nat.xor crc (b % 256))) 0xFFFFFFFF) 0xFFFFFFFF

/-- Shape of an `IngestExternalFiles` error: whether it is the engine's
native `RocksDBError` type and whether its message contains one of the two
recognized sequence-number substrings. -/
structure IngestError where
  isRocksDBError : Bool
  containsSeqNoMsg : Bool
deriving DecidableEq

/-- Outcomes of the external filesystem/engine calls made by
`addSSTablePreApply`, in call order. -/
structure SSTEnv where
  versionUnreplicatedRaftTruncatedState : Bool
  filenameOk : Bool
  inmem : Bool
  writeFileErr : Bool
  statLinkCount : Option Nat
  linkErr : Bool
  ingestNoModifyErr : Option IngestError
  rmErr : Bool
  mkdirErr : Bool
  ingestPathExists : Bool
  removeErr : Bool
  writeSyncErr : Bool
  finalIngestErr : Bool
deriving DecidableEq

/-- Terminal outcome of `addSSTablePreApply`: one of its fatal/panic exits,
or normal return with the `copied` flag. -/
inductive SSTOutcome where
  | fatalChecksumMismatch
  | fatalMissingSideloaded
  | panicWriteFile
  | fatalRemoveIngested
  | fatalIngest
  | panicMkdir
  | fatalRemoveExisting
  | fatalWriteSyncing
  | fatalFinalIngest
  | ok (copied : Bool)
deriving DecidableEq

/-- `addSSTablePreApply`: verify the payload CRC (mismatch is fatal),
resolve the sideloaded filename (missing is fatal), then ingest — in-memory
engines get the payload written by checksum name; on-disk engines try the
hardlink/no-modify fast path when the link count is 1 and fall back to
writing a fresh copy on the recognized sequence-number errors.  Returns the
outcome together with the number of `IngestExternalFiles` calls made. -/
def addSSTablePreApply (env : SSTEnv) (_term _index : Nat)
    (sst : ReplicatedEvalResult_AddSSTable) : SSTOutcome × Nat :=
  let checksum := CRC32 sst.Data
  if checksum ≠ sst.CRC32 then
    -- checksum for AddSSTable does not match: fatal before any ingestion.
    (.fatalChecksumMismatch, 0)
  else if !env.filenameOk then
    (.fatalMissingSideloaded, 0)
  else
    -- eng.PreIngestDelay: external back-pressure, elided.  canSkipSeqNo is
    -- handed to the engine, which is external.
    if env.inmem then
      -- In-memory engine path: write the payload to a path keyed by the
      -- checksum, then ingest with modification allowed.
      if env.writeFileErr then (.panicWriteFile, 0)
      else if env.finalIngestErr then (.fatalFinalIngest, 1)
      else (.ok false, 1)
    else
      let canLinkToRaftFile := env.statLinkCount = some 1
      let afterLink : Except (SSTOutcome × Nat) Nat :=
        if canLinkToRaftFile then
          if env.linkErr then
            -- Hard-link failed; fall back to writing a copy.
            .ok 0
          else
            match env.ingestNoModifyErr with
            | none =>
                -- Adding without modification succeeded, no copy necessary.
                .error (.ok false, 1)
            | some ingestErr =>
                if env.rmErr then .error (.fatalRemoveIngested, 1)
                else if !ingestErr.isRocksDBError || !ingestErr.containsSeqNoMsg then
                  .error (.fatalIngest, 1)
                else
                  -- Recognized seq-no error: make a copy and try again.
                  .ok 1
        else .ok 0
      match afterLink with
      | .error out => out
      | .ok n =>
          if env.mkdirErr then (.panicMkdir, n)
          else if env.ingestPathExists && env.removeErr then (.fatalRemoveExisting, n)
          else if env.writeSyncErr then (.fatalWriteSyncing, n)
          else if env.finalIngestErr then (.fatalFinalIngest, n + 1)
          else (.ok true, n + 1)

/-- The external `storagepb.WriteBatch`. -/
structure WriteBatch where
  Data : List Nat
deriving DecidableEq

/-- The external `result.Result`: local and replicated halves plus the
serialized write batch and the logical op log. -/
structure Result where
  Local : LocalResult
  Replicated : ReplicatedEvalResult
  WriteBatch : Option WriteBatch
  LogicalOpLog : Option Nat
deriving DecidableEq

/-- The external `roachpb.BatchRequest`, restricted to what
`evaluateProposal` consults: the timestamp, the optional transaction, and
the `IsLeaseRequest()` classification. -/
structure BatchRequest where
  Timestamp : Nat
  Txn : Option Nat
  IsLeaseRequest : Bool
deriving DecidableEq

/-- Modelled from the spec: `timeutil.ClocklessMaxOffset`, the sentinel
max-offset value that marks "clockless" mode (external to the corpus). -/
def ClocklessMaxOffset : Int := 9223372036854775807

/-- The error built by `roachpb.NewErrorf` for a zero-timestamp batch. -/
def zeroTimestampError : PErr := ⟨none, 1⟩

/-- Outcomes of the external collaborators consulted by `evaluateProposal`:
the tuple returned by `evaluateWriteBatch` (write-batch emptiness and
serialized representation, MVCC delta, reply, result, error), the
`maybeSetCorrupt` transform, the clock's max offset, and the relevant
cluster version gates. -/
structure EvalEnv where
  batchEmpty : Bool
  batchRepr : List Nat
  ms : MVCCStats
  br : Option Nat
  res : Result
  pErr : Option PErr
  maybeSetCorrupt : PErr → PErr
  maxOffset : Int
  versionMVCCNetworkStats : Bool
  versionRangeAppliedStateKey : Bool

/-- `Replica.evaluateProposal`: reject zero-timestamp batches, evaluate the
batch (external), on error whitelist the local result and reset the
replicated half, on success attach the reply and decide `needConsensus`,
and when consensus is needed fill in the write batch, the replicated
metadata, the (possibly deprecated) stats delta, and the applied-state-key
migration flag.  Returns the result, the `needConsensus` flag, and the
error. -/
def evaluateProposal (env : EvalEnv) (s : ReplicaMuState) (ba : BatchRequest) :
    Except Fatal (Option Result × Bool × Option PErr) :=
  if ba.Timestamp = 0 then
    -- can't propose Raft command with zero timestamp
    .ok (none, false, some zeroTimestampError)
  else
    -- Evaluate the commands (external collaborator); the write batch is
    -- always closed by this method.
    let ms := env.ms
    let br := env.br
    let res := env.res
    match env.pErr with
    | some pErr =>
        let pErr := env.maybeSetCorrupt pErr
        match pErr.txn, ba.Txn with
        | some _, none =>
            -- error had a txn but batch is non-transactional
            .error .txnInNonTxnBatch
        | _, _ =>
            -- Failed proposals can't have any Result except what's
            -- whitelisted here.
            let intents := res.Local.detachIntents
            let endTxns := res.Local.detachEndTxns true
            let res := { res with
              Local := { LocalResult.empty with
                Intents := some intents, EndTxns := some endTxns,
                Metrics := res.Local.Metrics },
              Replicated := ReplicatedEvalResult.empty }
            .ok (some res, false, some pErr)
    | none =>
        -- Set the local reply, held only on the proposing replica.
        let res := { res with Local := { res.Local with Reply := br } }
        let needConsensus : Bool :=
          !env.batchEmpty ||
          (if ms = MVCCStats.empty then false else true) ||
          (if res.Replicated = ReplicatedEvalResult.empty then false else true) ||
          (if env.maxOffset = ClocklessMaxOffset then true else false)
        let res :=
          if needConsensus then
            -- Serialized representation of the proposal's effect on the
            -- engine.
            let res := { res with WriteBatch := some ⟨env.batchRepr⟩ }
            let res := { res with Replicated := { res.Replicated with
              IsLeaseRequest := ba.IsLeaseRequest, Timestamp := ba.Timestamp } }
            let res :=
              if env.versionMVCCNetworkStats then
                { res with Replicated := { res.Replicated with Delta := ms } }
              else
                { res with Replicated := { res.Replicated with DeprecatedDelta := some ms } }
            -- Send the applied-state-key migration flag through Raft when
            -- not yet in use and the cluster version permits.
            if !s.usingAppliedStateKey && env.versionRangeAppliedStateKey then
              match res.Replicated.State with
              | none =>
                  { res with Replicated := { res.Replicated with
                    State := some { ReplicaState.empty with UsingAppliedStateKey := true } } }
              | some st =>
                  { res with Replicated := { res.Replicated with
                    State := some { st with UsingAppliedStateKey := true } } }
            else res
          else res
        .ok (some res, needConsensus, none)

/-- Exactly the clearing `handleReplicatedEvalResult` performs before it
computes `shouldAssert`, as a function of whether the replica is already
using the applied-state key: the observational fields, block-reads, the
stats delta, the truncated state, a zero-valued legacy stats struct, an
already-set migration flag, the Raft-log delta, and the suggested
compactions. -/
def clearTrivialFields (usingAppliedStateKey : Bool) (r : ReplicatedEvalResult) :
    ReplicatedEvalResult :=
  let r := { r with IsLeaseRequest := false, Timestamp := 0, PrevLeaseProposal := none,
                    BlockReads := false, Delta := MVCCStats.empty, RaftLogDelta := 0,
                    SuggestedCompactions := [] }
  match r.State with
  | none => r
  | some st =>
      let st := { st with TruncatedState := none }
      let st :=
        match st.Stats with
        | some v => if v = MVCCStats.empty then { st with Stats := none } else st
        | none => st
      let st :=
        if st.UsingAppliedStateKey then
          if usingAppliedStateKey then { st with UsingAppliedStateKey := false } else st
        else st
      { r with State := if st = ReplicaState.empty then none else some st }

/-- Claim C4 as written: the result is non-zero after excluding exactly the
trivial updates — the MVCC stats delta, the truncated-state change, and the
Raft-log-size delta. -/
def nonTrivialPerClaim (r : ReplicatedEvalResult) : Bool :=
  let r := { r with Delta := MVCCStats.empty, RaftLogDelta := 0 }
  let r :=
    match r.State with
    | none => r
    | some st =>
        let st := { st with TruncatedState := none }
        { r with State := if st = ReplicaState.empty then none else some st }
  if r = ReplicatedEvalResult.empty then false else true

/-- Claim C5's `needConsensus` condition as written in the spec: the write
batch is non-empty, or the MVCC delta is non-zero, or the replicated half
is non-zero, or the clock is in clockless mode. -/
def needConsensusSpec (env : EvalEnv) : Prop :=
  env.batchEmpty = false ∨ env.ms ≠ MVCCStats.empty ∨
  env.res.Replicated ≠ ReplicatedEvalResult.empty ∨ env.maxOffset = ClocklessMaxOffset

/-- A lease-equivalence predicate that accepts any pair (used to instantiate
theorems at concrete inputs). -/
def leaseEquivTrue : Lease → Lease → Bool := fun _ _ => true

/-- A small concrete replica state used to instantiate theorems. -/
def sampleState : ReplicaMuState :=
  { replicaID := 1, storeID := 1, stats := MVCCStats.empty, raftAppliedIndex := 10,
    leaseAppliedIndex := 5, truncatedState := none, usingAppliedStateKey := false,
    desc := 0, lease := ⟨3, 100, 1, 1⟩, gcThreshold := 0, txnSpanGCThreshold := 0,
    raftLogSize := 0, raftLogLastCheckSize := 0, tsCacheLowWater := 0,
    txnWaitQueueEnabled := false, checksums := [], nextChan := 0 }

/-- A benign apply environment used to instantiate theorems. -/
def applyEnv0 : ApplyEnv :=
  { truncateSideloaded := .ok 0, raftLogQueueStaleSize := 65536, mergeOk := true,
    leaseEnv := { mergeWatchOk := true }, now := 0 }

/-- C3: calling `finishApplication` twice on a proposal holding all three
resources performs the span-finish sub-step twice in total — the `sp`
reference is never cleared — refuting the claim that each of the three
sub-steps runs at most once in total across both calls. -/
theorem finishApplication_span_twice_counterexample :
    (finishApplication (⟨true, true, true⟩ : ProposalData) ⟨none, none, [], []⟩).2.spanFinishes +
      (finishApplication
        (finishApplication (⟨true, true, true⟩ : ProposalData) ⟨none, none, [], []⟩).1
        ⟨none, none, [], []⟩).2.spanFinishes = 2 := by
  decide

/-- C3 amended: across two successive `finishApplication` calls the
latch-release hook and the completion-channel send each run at most once in
total, but the span-finish sub-step is not once-guarded: it runs in every
call in which a span is attached (the `sp` reference is never cleared), so
it runs twice across the two calls whenever `sp` is set. -/
theorem finishApplication_atMostOnce_amended (p : ProposalData) (pr1 pr2 : proposalResult) :
    (finishApplication p pr1).2.endCmdsDone +
      (finishApplication (finishApplication p pr1).1 pr2).2.endCmdsDone ≤ 1 ∧
    (finishApplication p pr1).2.doneChSends +
      (finishApplication (finishApplication p pr1).1 pr2).2.doneChSends ≤ 1 ∧
    (finishApplication p pr1).2.spanFinishes = (if p.sp then 1 else 0) ∧
    (finishApplication (finishApplication p pr1).1 pr2).2.spanFinishes =
      (if p.sp then 1 else 0) := by
  obtain ⟨e, sp, d⟩ := p
  cases e <;> cases sp <;> cases d <;>
    simp [finishApplication, signalProposalResult]

/-- A benign SSTable environment used to instantiate theorems. -/
def sstEnv0 : SSTEnv :=
  { versionUnreplicatedRaftTruncatedState := true, filenameOk := true, inmem := false,
    writeFileErr := false, statLinkCount := some 1, linkErr := false,
    ingestNoModifyErr := none, rmErr := false, mkdirErr := false,
    ingestPathExists := false, removeErr := false, writeSyncErr := false,
    finalIngestErr := false }

/-- C9: `addSSTablePreApply` recomputes the CRC over the payload before any
ingestion step; on a mismatch it exits fatally having made no
`IngestExternalFiles` call, and on a match the CRC-mismatch fatal branch is
unreachable. -/
theorem addSSTablePreApply_crcGate (env : SSTEnv) (term index : Nat)
    (sst : ReplicatedEvalResult_AddSSTable) :
    (CRC32 sst.Data ≠ sst.CRC32 →
      addSSTablePreApply env term index sst = (SSTOutcome.fatalChecksumMismatch, 0)) ∧
    (CRC32 sst.Data = sst.CRC32 →
      (addSSTablePreApply env term index sst).1 ≠ SSTOutcome.fatalChecksumMismatch) := by
  constructor
  · intro h
    simp [addSSTablePreApply, h]
  · intro h
    simp only [addSSTablePreApply, h, ne_eq, not_true_eq_false, if_false]
    repeat' split
    all_goals try (rename_i heq; repeat' split at heq)
    all_goals try (cases heq)
    all_goals simp_all

/-- Witness for C9 at concrete inputs: the empty payload has CRC 0, so a
stored CRC of 1 is rejected with no ingestion and a stored CRC of 0 passes
the gate. -/
theorem addSSTablePreApply_crcGate_witness :
    addSSTablePreApply sstEnv0 1 2 ⟨[], 1⟩ = (SSTOutcome.fatalChecksumMismatch, 0) ∧
    (addSSTablePreApply sstEnv0 1 2 ⟨[], 0⟩).1 ≠ SSTOutcome.fatalChecksumMismatch :=
  ⟨(addSSTablePreApply_crcGate sstEnv0 1 2 ⟨[], 1⟩).1 (by decide),
   (addSSTablePreApply_crcGate sstEnv0 1 2 ⟨[], 0⟩).2 (by decide)⟩

/-- Storing under a key makes it the key's binding in the checksum map. -/
theorem lookupChecksum_setChecksum (l : List (Nat × ReplicaChecksum)) (id : Nat)
    (v : ReplicaChecksum) : lookupChecksum (setChecksum l id v) id = some v := by
  induction l with
  | nil => simp [setChecksum, lookupChecksum]
  | cons hd t ih =>
      obtain ⟨k, w⟩ := hd
      by_cases hk : k = id <;> simp [setChecksum, lookupChecksum, hk, ih]

/-- C10: checksum-entry GC deletes exactly the entries whose GC timestamp is
set (non-zero) and strictly earlier than the current time; an entry whose GC
timestamp is unset — in particular the in-progress entry that
`computeChecksumPostApply` installs with `started = true` and GC timestamp
unset — is never deleted. -/
theorem gcOldChecksumEntries_spec (now : Nat) (m : List (Nat × ReplicaChecksum))
    (id : Nat) (v : ReplicaChecksum) (s s' : ReplicaMuState)
    (cc : ComputeChecksumPayload) (ch : Nat) :
    ((id, v) ∈ gcOldChecksumEntriesLocked now m ↔
      (id, v) ∈ m ∧ ¬(v.gcTimestamp ≠ 0 ∧ v.gcTimestamp < now)) ∧
    (v.gcTimestamp = 0 → (id, v) ∈ m → (id, v) ∈ gcOldChecksumEntriesLocked now m) ∧
    (computeChecksumPostApply now s cc = .ok (s', ch) →
      lookupChecksum s'.checksums cc.ChecksumID = some ⟨true, ch, none, 0⟩) := by
  refine ⟨?_, ?_, ?_⟩
  · simp only [gcOldChecksumEntriesLocked, List.mem_filter]
    by_cases hc : v.gcTimestamp ≠ 0 ∧ v.gcTimestamp < now <;> simp [hc]
  · intro h0 hm
    simp only [gcOldChecksumEntriesLocked, List.mem_filter]
    simp [hm, h0]
  · intro h
    cases hl : lookupChecksum s.checksums cc.ChecksumID with
    | none =>
        simp only [computeChecksumPostApply, hl] at h
        obtain ⟨hs', hch⟩ := Prod.mk.injEq .. ▸ (Except.ok.injEq .. ▸ h)
        rw [← hs', ← hch]
        exact lookupChecksum_setChecksum ..
    | some c =>
        by_cases hs : c.started
        · simp [computeChecksumPostApply, hl, hs] at h
        · simp only [computeChecksumPostApply, hl, hs, Bool.not_false, if_true] at h
          obtain ⟨hs', hch⟩ := Prod.mk.injEq .. ▸ (Except.ok.injEq .. ▸ h)
          rw [← hs', ← hch]
          exact lookupChecksum_setChecksum ..

/-- Witness for C10 at concrete inputs: an entry with unset GC timestamp
survives GC, and the entry installed by a concrete
`computeChecksumPostApply` run is found started with unset GC timestamp. -/
theorem gcOldChecksumEntries_spec_witness :
    (5, (⟨false, 3, none, 0⟩ : ReplicaChecksum)) ∈
      gcOldChecksumEntriesLocked 10 [(5, ⟨false, 3, none, 0⟩)] ∧
    lookupChecksum ({ sampleState with nextChan := 1, checksums := [(7, ⟨true, 0, none, 0⟩)] } : ReplicaMuState).checksums 7 =
      some ⟨true, 0, none, 0⟩ :=
  ⟨(gcOldChecksumEntries_spec 10 [(5, ⟨false, 3, none, 0⟩)] 5 ⟨false, 3, none, 0⟩
      sampleState sampleState ⟨7, 1, false, 0, false⟩ 0).2.1 rfl (by simp),
   (gcOldChecksumEntries_spec 0 [] 0 ⟨false, 0, none, 0⟩ sampleState
      { sampleState with nextChan := 1, checksums := [(7, ⟨true, 0, none, 0⟩)] }
      ⟨7, 1, false, 0, false⟩ 0).2.2 rfl⟩

/-- C7: on apply of a compute-checksum command with identifier
`cc.ChecksumID`, exactly one of three behaviors occurs: with no map entry a
fresh notification channel (the next unused identifier) is created and
installed; with an entry whose `started` is false, that entry's channel is
reused, so the waiting collector is notified on the channel it already
holds; with an entry whose `started` is true, the process crashes. -/
theorem computeChecksumPostApply_threeCases (now : Nat) (s : ReplicaMuState)
    (cc : ComputeChecksumPayload) :
    (lookupChecksum s.checksums cc.ChecksumID = none →
      computeChecksumPostApply now s cc =
        .ok ({ s with nextChan := s.nextChan + 1, checksums := setChecksum (gcOldChecksumEntriesLocked now s.checksums) cc.ChecksumID ⟨true, s.nextChan, none, 0⟩ }, s.nextChan)) ∧
    (∀ c, lookupChecksum s.checksums cc.ChecksumID = some c → c.started = false →
      computeChecksumPostApply now s cc =
        .ok ({ s with checksums := setChecksum (gcOldChecksumEntriesLocked now s.checksums) cc.ChecksumID ⟨true, c.notify, none, 0⟩ }, c.notify)) ∧
    (∀ c, lookupChecksum s.checksums cc.ChecksumID = some c → c.started = true →
      computeChecksumPostApply now s cc = .error .duplicateChecksum) := by
  refine ⟨?_, ?_, ?_⟩
  · intro hl
    simp [computeChecksumPostApply, hl]
  · intro c hl hs
    simp [computeChecksumPostApply, hl, hs]
  · intro c hl hs
    simp [computeChecksumPostApply, hl, hs]

/-- Witness for C7 at concrete inputs: a fresh channel for an unknown ID, the
waiting collector's channel 42 reused for an unstarted entry, and a fatal
error for a started entry. -/
theorem computeChecksumPostApply_threeCases_witness :
    computeChecksumPostApply 0 sampleState ⟨7, 1, false, 0, false⟩ =
      .ok ({ sampleState with nextChan := 1, checksums := [(7, ⟨true, 0, none, 0⟩)] }, 0) ∧
    computeChecksumPostApply 0
        { sampleState with checksums := [(7, ⟨false, 42, none, 0⟩)] } ⟨7, 1, false, 0, false⟩ =
      .ok ({ sampleState with checksums := [(7, ⟨true, 42, none, 0⟩)] }, 42) ∧
    computeChecksumPostApply 0
        { sampleState with checksums := [(7, ⟨true, 42, none, 0⟩)] } ⟨7, 1, false, 0, false⟩ =
      .error .duplicateChecksum := by
  refine ⟨?_, ?_, ?_⟩
  · exact (computeChecksumPostApply_threeCases 0 sampleState ⟨7, 1, false, 0, false⟩).1 rfl
  · exact (computeChecksumPostApply_threeCases 0
      { sampleState with checksums := [(7, ⟨false, 42, none, 0⟩)] }
      ⟨7, 1, false, 0, false⟩).2.1 ⟨false, 42, none, 0⟩ rfl rfl
  · exact (computeChecksumPostApply_threeCases 0
      { sampleState with checksums := [(7, ⟨true, 42, none, 0⟩)] }
      ⟨7, 1, false, 0, false⟩).2.2 ⟨true, 42, none, 0⟩ rfl rfl

/-- C2: for every pair of leases with a non-zero previous sequence, and with
the merge-watch collaborator healthy, `leasePostApply` enforces the sequence
discipline: a lower new sequence is fatal; an equal sequence with
non-equivalent leases is fatal; an increment by exactly one proceeds
normally; a jump by more than one without `permitJump` is fatal. -/
theorem leasePostApply_sequenceDiscipline (equiv : Lease → Lease → Bool) (env : LeaseEnv)
    (s : ReplicaMuState) (newLease : Lease) (permitJump : Bool)
    (hseq : s.lease.sequence ≠ 0) (hmw : env.mergeWatchOk = true) :
    (newLease.sequence < s.lease.sequence →
      leasePostApply equiv env s newLease permitJump = .error .leaseSequenceInversion) ∧
    (newLease.sequence = s.lease.sequence → equiv s.lease newLease = false →
      leasePostApply equiv env s newLease permitJump = .error .leaseIdenticalSequenceDiffers) ∧
    (newLease.sequence = s.lease.sequence + 1 →
      ∃ s', leasePostApply equiv env s newLease permitJump = .ok s') ∧
    (newLease.sequence > s.lease.sequence + 1 → permitJump = false →
      leasePostApply equiv env s newLease permitJump = .error .leaseSequenceJump) := by
  refine ⟨?_, ?_, ?_, ?_⟩
  · intro hlt
    have hc : leaseSequenceCheck equiv s.lease newLease permitJump =
        some .leaseSequenceInversion := by
      simp [leaseSequenceCheck, hseq, hlt]
    simp [leasePostApply, hmw, hc]
  · intro heqs hne
    have hc : leaseSequenceCheck equiv s.lease newLease permitJump =
        some .leaseIdenticalSequenceDiffers := by
      simp [leaseSequenceCheck, hseq, heqs, hne]
    simp [leasePostApply, hmw, hc]
  · intro hsucc
    have hc : leaseSequenceCheck equiv s.lease newLease permitJump = none := by
      simp [leaseSequenceCheck, hseq, hsucc]
    simp only [leasePostApply, hmw, Bool.not_true, Bool.and_false, Bool.false_eq_true,
      if_false, hc]
    exact ⟨_, rfl⟩
  · intro hjump hpj
    have hc : leaseSequenceCheck equiv s.lease newLease permitJump =
        some .leaseSequenceJump := by
      have h1 : ¬newLease.sequence < s.lease.sequence := by omega
      have h2 : newLease.sequence ≠ s.lease.sequence := by omega
      have h3 : newLease.sequence ≠ s.lease.sequence + 1 := by omega
      simp [leaseSequenceCheck, hseq, h1, h2, h3, hpj]
    simp [leasePostApply, hmw, hc]

/-- Witness for C2 at concrete leases (previous sequence 3): sequence 2 is an
inversion, an identical sequence with a never-equivalent predicate is fatal,
sequence 4 proceeds, and sequence 9 without permitJump is a jump. -/
theorem leasePostApply_sequenceDiscipline_witness :
    leasePostApply (fun _ _ => false) ⟨true⟩ sampleState ⟨2, 200, 1, 1⟩ false =
      .error .leaseSequenceInversion ∧
    leasePostApply (fun _ _ => false) ⟨true⟩ sampleState ⟨3, 200, 1, 1⟩ false =
      .error .leaseIdenticalSequenceDiffers ∧
    (∃ s', leasePostApply (fun _ _ => false) ⟨true⟩ sampleState ⟨4, 200, 1, 1⟩ false = .ok s') ∧
    leasePostApply (fun _ _ => false) ⟨true⟩ sampleState ⟨9, 200, 1, 1⟩ false =
      .error .leaseSequenceJump := by
  refine ⟨?_, ?_, ?_, ?_⟩
  · exact (leasePostApply_sequenceDiscipline (fun _ _ => false) ⟨true⟩ sampleState
      ⟨2, 200, 1, 1⟩ false (by decide) rfl).1 (by decide)
  · exact (leasePostApply_sequenceDiscipline (fun _ _ => false) ⟨true⟩ sampleState
      ⟨3, 200, 1, 1⟩ false (by decide) rfl).2.1 (by decide) rfl
  · exact (leasePostApply_sequenceDiscipline (fun _ _ => false) ⟨true⟩ sampleState
      ⟨4, 200, 1, 1⟩ false (by decide) rfl).2.2.1 (by decide)
  · exact (leasePostApply_sequenceDiscipline (fun _ _ => false) ⟨true⟩ sampleState
      ⟨9, 200, 1, 1⟩ false (by decide) rfl).2.2.2 (by decide) rfl

/-- C1: the appliers enforce the field-exhaustion invariant.  For every
replicated result, `handleReplicatedEvalResult` returns normally exactly
when the residual struct at the end of the apply is the zero value, and
crashes fatally whenever any field remains non-zero; likewise for
`handleLocalEvalResult` (whose embedding zeroes the reply up front). -/
theorem evalResult_exhaustion (equiv : Lease → Lease → Bool) (env : ApplyEnv)
    (s : ReplicaMuState) (rResult : ReplicatedEvalResult) (rai lai : Nat)
    (lResult : LocalResult) :
    (∀ s' b, handleReplicatedEvalResult equiv env s rResult rai lai = .ok (s', b) →
      applyReplicatedEvalResult equiv env s rResult rai lai =
        .ok (s', b, ReplicatedEvalResult.empty)) ∧
    (∀ s' b res, applyReplicatedEvalResult equiv env s rResult rai lai = .ok (s', b, res) →
      res ≠ ReplicatedEvalResult.empty →
      handleReplicatedEvalResult equiv env s rResult rai lai =
        .error .unhandledReplicatedField) ∧
    (∀ res, handleLocalEvalResult lResult = .ok () → applyLocalEvalResult lResult = .ok res →
      res = LocalResult.empty) ∧
    (∀ res, applyLocalEvalResult lResult = .ok res → res ≠ LocalResult.empty →
      handleLocalEvalResult lResult = .error .unhandledLocalField) := by
  refine ⟨?_, ?_, ?_, ?_⟩
  · intro s' b h
    unfold handleReplicatedEvalResult at h
    cases ha : applyReplicatedEvalResult equiv env s rResult rai lai with
    | error f => rw [ha] at h; exact absurd h (by simp)
    | ok v =>
        obtain ⟨s₁, b₁, res₁⟩ := v
        rw [ha] at h
        by_cases hres : res₁ = ReplicatedEvalResult.empty
        · simp only [hres, if_pos rfl] at h
          obtain ⟨hs, hb⟩ := Prod.mk.injEq .. ▸ (Except.ok.injEq .. ▸ h)
          rw [hs, hb, hres]
        · simp [hres] at h
  · intro s' b res ha hres
    unfold handleReplicatedEvalResult
    rw [ha]
    simp [hres]
  · intro res hh ha
    unfold handleLocalEvalResult at hh
    rw [ha] at hh
    by_cases hres : res = LocalResult.empty
    · exact hres
    · simp [hres] at hh
  · intro res ha hres
    unfold handleLocalEvalResult
    rw [ha]
    simp [hres]

/-- Witness for C1 at concrete inputs: the zero replicated result applies
cleanly with an all-zero residual, and a local result carrying a non-nil
empty `UpdatedTxns` list leaves a residual field and crashes. -/
theorem evalResult_exhaustion_witness :
    applyReplicatedEvalResult leaseEquivTrue applyEnv0 sampleState
      ReplicatedEvalResult.empty 0 0 = .ok (sampleState, false, ReplicatedEvalResult.empty) ∧
    handleLocalEvalResult { LocalResult.empty with UpdatedTxns := some [] } =
      .error .unhandledLocalField :=
  ⟨(evalResult_exhaustion leaseEquivTrue applyEnv0 sampleState ReplicatedEvalResult.empty 0 0
      LocalResult.empty).1 sampleState false rfl,
   (evalResult_exhaustion leaseEquivTrue applyEnv0 sampleState ReplicatedEvalResult.empty 0 0
      { LocalResult.empty with UpdatedTxns := some [] }).2.2.2
      { LocalResult.empty with UpdatedTxns := some [] } rfl (by decide)⟩

/-- `leasePostApply` never touches the Raft-log-size accounting. -/
theorem leasePostApply_raftLogSize (equiv : Lease → Lease → Bool) (env : LeaseEnv)
    (s : ReplicaMuState) (newLease : Lease) (permitJump : Bool) (s' : ReplicaMuState)
    (h : leasePostApply equiv env s newLease permitJump = .ok s') :
    s'.raftLogSize = s.raftLogSize := by
  simp only [leasePostApply] at h
  split at h
  · exact absurd h (by simp)
  · split at h
    · exact absurd h (by simp)
    · simp only [Except.ok.injEq] at h
      subst h
      repeat' split
      all_goals rfl


/-- `computeChecksumPostApply` never touches the Raft-log-size accounting. -/
theorem computeChecksumPostApply_raftLogSize (now : Nat) (s : ReplicaMuState)
    (cc : ComputeChecksumPayload) (s' : ReplicaMuState) (ch : Nat)
    (h : computeChecksumPostApply now s cc = .ok (s', ch)) :
    s'.raftLogSize = s.raftLogSize := by
  cases hl : lookupChecksum s.checksums cc.ChecksumID with
  | none =>
      simp only [computeChecksumPostApply, hl] at h
      obtain ⟨h1, h2⟩ := Prod.mk.injEq .. ▸ (Except.ok.injEq .. ▸ h)
      rw [← h1]
  | some c =>
      by_cases hs : c.started
      · simp [computeChecksumPostApply, hl, hs] at h
      · simp only [computeChecksumPostApply, hl, hs, Bool.not_false, if_true] at h
        obtain ⟨h1, h2⟩ := Prod.mk.injEq .. ▸ (Except.ok.injEq .. ▸ h)
        rw [← h1]

/-- Descriptor installation never touches the Raft-log-size accounting. -/
theorem applyStateDesc_raftLogSize (s : ReplicaMuState) (st : ReplicaState) :
    (applyStateDesc s st).1.raftLogSize = s.raftLogSize := by
  cases hd : st.Desc <;> simp [applyStateDesc, hd]

/-- GC-threshold installation never touches the Raft-log-size accounting. -/
theorem applyStateGCThreshold_raftLogSize (s : ReplicaMuState) (st : ReplicaState) :
    (applyStateGCThreshold s st).1.raftLogSize = s.raftLogSize := by
  cases hd : st.GCThreshold with
  | none => simp [applyStateGCThreshold, hd]
  | some v => by_cases hv : v ≠ 0 <;> simp [applyStateGCThreshold, hd, hv]

/-- Txn-span-GC-threshold installation never touches the Raft-log-size
accounting. -/
theorem applyStateTxnSpanGCThreshold_raftLogSize (s : ReplicaMuState) (st : ReplicaState) :
    (applyStateTxnSpanGCThreshold s st).1.raftLogSize = s.raftLogSize := by
  cases hd : st.TxnSpanGCThreshold with
  | none => simp [applyStateTxnSpanGCThreshold, hd]
  | some v => by_cases hv : v ≠ 0 <;> simp [applyStateTxnSpanGCThreshold, hd, hv]

/-- The applied-state-key flag never touches the Raft-log-size accounting. -/
theorem applyStateASK_raftLogSize (s : ReplicaMuState) (st : ReplicaState) :
    (applyStateASK s st).1.raftLogSize = s.raftLogSize := by
  by_cases hu : st.UsingAppliedStateKey <;> simp [applyStateASK, hu]

/-- Lease installation never touches the Raft-log-size accounting. -/
theorem applyStateLease_raftLogSize (equiv : Lease → Lease → Bool) (lenv : LeaseEnv)
    (s : ReplicaMuState) (st : ReplicaState) (s' : ReplicaMuState) (st' : ReplicaState)
    (h : applyStateLease equiv lenv s st = .ok (s', st')) :
    s'.raftLogSize = s.raftLogSize := by
  cases hd : st.Lease with
  | none =>
      simp only [applyStateLease, hd] at h
      obtain ⟨h1, h2⟩ := Prod.mk.injEq .. ▸ (Except.ok.injEq .. ▸ h)
      rw [← h1]
  | some nl =>
      simp only [applyStateLease, hd] at h
      cases hlp : leasePostApply equiv lenv s nl false with
      | error f => rw [hlp] at h; exact absurd h (by simp)
      | ok s₂ =>
          rw [hlp] at h
          obtain ⟨h1, h2⟩ := Prod.mk.injEq .. ▸ (Except.ok.injEq .. ▸ h)
          rw [← h1]
          exact leasePostApply_raftLogSize equiv lenv s nl false s₂ hlp

/-- The nontrivial `ReplicaState` sub-field processing never touches the
Raft-log-size accounting. -/
theorem applyStateNonTrivial_raftLogSize (equiv : Lease → Lease → Bool) (env : ApplyEnv)
    (s : ReplicaMuState) (st : ReplicaState) (s' : ReplicaMuState) (st' : ReplicaState)
    (h : applyStateNonTrivial equiv env s st = .ok (s', st')) :
    s'.raftLogSize = s.raftLogSize := by
  unfold applyStateNonTrivial at h
  split at h
  rename_i s₁ st₁ hD
  split at h
  · exact absurd h (by simp)
  · rename_i s₂ st₂ hL
    split at h
    rename_i s₃ st₃ hG
    split at h
    rename_i s₄ st₄ hT
    have h12 := Except.ok.inj h
    have h1 := congrArg (fun x => x.1.raftLogSize) h12
    simp only at h1
    rw [applyStateASK_raftLogSize] at h1
    have e4 := congrArg (fun x => x.1.raftLogSize) hT
    simp only at e4
    rw [applyStateTxnSpanGCThreshold_raftLogSize] at e4
    have e3 := congrArg (fun x => x.1.raftLogSize) hG
    simp only at e3
    rw [applyStateGCThreshold_raftLogSize] at e3
    have e2 := applyStateLease_raftLogSize equiv env.leaseEnv s₁ st₁ s₂ st₂ hL
    have e1 := congrArg (fun x => x.1.raftLogSize) hD
    simp only at e1
    rw [applyStateDesc_raftLogSize] at e1
    omega

/-- The `State`-field wrapper never touches the Raft-log-size accounting. -/
theorem applyStateNonTrivialField_raftLogSize (equiv : Lease → Lease → Bool) (env : ApplyEnv)
    (s : ReplicaMuState) (r : ReplicatedEvalResult) (s' : ReplicaMuState)
    (r' : ReplicatedEvalResult)
    (h : applyStateNonTrivialField equiv env s r = .ok (s', r')) :
    s'.raftLogSize = s.raftLogSize := by
  cases hd : r.State with
  | none =>
      simp only [applyStateNonTrivialField, hd] at h
      obtain ⟨h1, h2⟩ := Prod.mk.injEq .. ▸ (Except.ok.injEq .. ▸ h)
      rw [← h1]
  | some st =>
      simp only [applyStateNonTrivialField, hd] at h
      cases hs0 : applyStateNonTrivial equiv env s st with
      | error f => rw [hs0] at h; exact absurd h (by simp)
      | ok v =>
          obtain ⟨s₂, st₂⟩ := v
          rw [hs0] at h
          have h12 := Except.ok.inj h
          have h1 := congrArg (fun x => x.1.raftLogSize) h12
          simp only at h1
          rw [← h1]
          exact applyStateNonTrivial_raftLogSize equiv env s st s₂ st₂ hs0

/-- The compute-checksum hand-off never touches the Raft-log-size
accounting. -/
theorem applyComputeChecksum_raftLogSize (env : ApplyEnv) (s : ReplicaMuState)
    (r : ReplicatedEvalResult) (s' : ReplicaMuState) (r' : ReplicatedEvalResult)
    (h : applyComputeChecksum env s r = .ok (s', r')) :
    s'.raftLogSize = s.raftLogSize := by
  cases hd : r.ComputeChecksum with
  | none =>
      simp only [applyComputeChecksum, hd] at h
      obtain ⟨h1, h2⟩ := Prod.mk.injEq .. ▸ (Except.ok.injEq .. ▸ h)
      rw [← h1]
  | some cc =>
      simp only [applyComputeChecksum, hd] at h
      cases hc : computeChecksumPostApply env.now s cc with
      | error f => rw [hc] at h; exact absurd h (by simp)
      | ok v =>
          obtain ⟨s₂, n₂⟩ := v
          rw [hc] at h
          have h12 := Except.ok.inj h
          have h1 := congrArg (fun x => x.1.raftLogSize) h12
          simp only at h1
          rw [← h1]
          exact computeChecksumPostApply_raftLogSize env.now s cc s₂ n₂ hc

/-- The whole nontrivial phase never touches the Raft-log-size accounting. -/
theorem applyNonTrivialPhase_raftLogSize (equiv : Lease → Lease → Bool) (env : ApplyEnv)
    (s : ReplicaMuState) (r : ReplicatedEvalResult) (s' : ReplicaMuState)
    (r' : ReplicatedEvalResult)
    (h : applyNonTrivialPhase equiv env s r = .ok (s', r')) :
    s'.raftLogSize = s.raftLogSize := by
  unfold applyNonTrivialPhase at h
  cases hm : applyMergeTrigger env (applySplitTrigger r) with
  | error f => simp only [hm] at h; exact absurd h (by simp)
  | ok r₁ =>
      simp only [hm] at h
      cases hsf : applyStateNonTrivialField equiv env s r₁ with
      | error f => simp only [hsf] at h; exact absurd h (by simp)
      | ok v =>
          obtain ⟨s₂, r₂⟩ := v
          simp only [hsf] at h
          rw [← applyStateNonTrivialField_raftLogSize equiv env s r₁ s₂ r₂ hsf]
          exact applyComputeChecksum_raftLogSize env s₂ (applyChangeReplicas r₂) s' r' h

/-- Truncated-state installation never touches the Raft-log size counter. -/
theorem applyNewTruncatedState_raftLogSize (env : ApplyEnv) (s : ReplicaMuState)
    (st : ReplicaState) (r : ReplicatedEvalResult) :
    (applyNewTruncatedState env s st r).1.raftLogSize = s.raftLogSize := by
  cases ht : st.TruncatedState with
  | none => simp [applyNewTruncatedState, ht]
  | some ts => cases he : env.truncateSideloaded <;> simp [applyNewTruncatedState, ht, he]

/-- The trivial `ReplicaState` sub-block never touches the Raft-log size
counter. -/
theorem applyStateTrivial_raftLogSize (env : ApplyEnv) (s : ReplicaMuState)
    (r : ReplicatedEvalResult) :
    (applyStateTrivial env s r).1.raftLogSize = s.raftLogSize := by
  cases hd : r.State with
  | none => simp [applyStateTrivial, hd]
  | some st => simp [applyStateTrivial, hd, applyNewTruncatedState_raftLogSize]

/-- The Raft-log-delta block keeps the Raft-log size counter non-negative
(the additive update is clamped at zero; without a delta the counter is
unchanged). -/
theorem applyRaftLogDelta_nonneg (env : ApplyEnv) (s : ReplicaMuState)
    (r : ReplicatedEvalResult) (h0 : 0 ≤ s.raftLogSize) :
    0 ≤ (applyRaftLogDelta env s r).1.raftLogSize := by
  simp only [applyRaftLogDelta]
  repeat' split
  all_goals simp_all

/-- The trivial phase keeps the Raft-log size counter non-negative. -/
theorem applyTrivialPhase_raftLogSize (env : ApplyEnv) (s : ReplicaMuState)
    (r : ReplicatedEvalResult) (rai lai : Nat) (h0 : 0 ≤ s.raftLogSize) :
    0 ≤ (applyTrivialPhase env s r rai lai).1.raftLogSize := by
  simp only [applyTrivialPhase]
  apply applyRaftLogDelta_nonneg
  rw [applyStateTrivial_raftLogSize]
  repeat' split
  all_goals exact h0

/-- One full apply keeps the Raft-log size counter non-negative. -/
theorem applyReplicatedEvalResult_raftLogSize (equiv : Lease → Lease → Bool) (env : ApplyEnv)
    (s : ReplicaMuState) (r : ReplicatedEvalResult) (rai lai : Nat) (s' : ReplicaMuState)
    (b : Bool) (res : ReplicatedEvalResult) (h0 : 0 ≤ s.raftLogSize)
    (h : applyReplicatedEvalResult equiv env s r rai lai = .ok (s', b, res)) :
    0 ≤ s'.raftLogSize := by
  simp only [applyReplicatedEvalResult] at h
  cases hnt : applyNonTrivialPhase equiv env (applyTrivialPhase env s r rai lai).1
      (applyTrivialPhase env s r rai lai).2 with
  | error f => rw [hnt] at h; exact absurd h (by simp)
  | ok v =>
      obtain ⟨s₂, r₂⟩ := v
      rw [hnt] at h
      have h12 := Except.ok.inj h
      have h1 := congrArg (fun x => x.1.raftLogSize) h12
      simp only at h1
      rw [← h1]
      rw [applyNonTrivialPhase_raftLogSize equiv env (applyTrivialPhase env s r rai lai).1
        (applyTrivialPhase env s r rai lai).2 s₂ r₂ hnt]
      exact applyTrivialPhase_raftLogSize env s r rai lai h0

/-- One `handleReplicatedEvalResult` keeps the Raft-log size counter
non-negative. -/
theorem handleReplicatedEvalResult_raftLogSize (equiv : Lease → Lease → Bool) (env : ApplyEnv)
    (s : ReplicaMuState) (r : ReplicatedEvalResult) (rai lai : Nat) (s' : ReplicaMuState)
    (b : Bool) (h0 : 0 ≤ s.raftLogSize)
    (h : handleReplicatedEvalResult equiv env s r rai lai = .ok (s', b)) :
    0 ≤ s'.raftLogSize := by
  unfold handleReplicatedEvalResult at h
  cases ha : applyReplicatedEvalResult equiv env s r rai lai with
  | error f => rw [ha] at h; exact absurd h (by simp)
  | ok v =>
      obtain ⟨s₁, b₁, res₁⟩ := v
      rw [ha] at h
      by_cases hres : res₁ = ReplicatedEvalResult.empty
      · simp only [hres, if_pos rfl] at h
        obtain ⟨hs, hb⟩ := Prod.mk.injEq .. ▸ (Except.ok.injEq .. ▸ h)
        rw [← hs]
        exact applyReplicatedEvalResult_raftLogSize equiv env s r rai lai s₁ b₁ res₁ h0 ha
      · simp [hres] at h

/-- C8: over any sequence of applies through `handleReplicatedEvalResult`,
the maintained `raftLogSize` counter stays non-negative after every step:
each additive update is clamped at zero from below, and no other step
touches the counter. -/
theorem handleReplicatedEvalResultSeq_raftLogSize (equiv : Lease → Lease → Bool)
    (inputs : List (ApplyEnv × ReplicatedEvalResult × Nat × Nat)) (s s' : ReplicaMuState)
    (h0 : 0 ≤ s.raftLogSize)
    (h : handleReplicatedEvalResultSeq equiv inputs s = .ok s') :
    0 ≤ s'.raftLogSize := by
  induction inputs generalizing s with
  | nil =>
      simp only [handleReplicatedEvalResultSeq] at h
      obtain h := Except.ok.inj h
      rw [← h]
      exact h0
  | cons hd rest ih =>
      obtain ⟨env, r, rai, lai⟩ := hd
      simp only [handleReplicatedEvalResultSeq] at h
      cases hh : handleReplicatedEvalResult equiv env s r rai lai with
      | error f => rw [hh] at h; exact absurd h (by simp)
      | ok v =>
          obtain ⟨s₁, b₁⟩ := v
          rw [hh] at h
          exact ih s₁ (handleReplicatedEvalResult_raftLogSize equiv env s r rai lai s₁ b₁ h0 hh) h

/-- Witness for C8 at a concrete run: starting from size 10, applying a
delta of −25 clamps the counter to zero, which is non-negative. -/
theorem handleReplicatedEvalResultSeq_raftLogSize_witness :
    (0 : Int) ≤ sampleState.raftLogSize :=
  handleReplicatedEvalResultSeq_raftLogSize leaseEquivTrue
    [(applyEnv0, { ReplicatedEvalResult.empty with RaftLogDelta := -25 }, 0, 0)]
    { sampleState with raftLogSize := 10 } sampleState (by decide) rfl

/-- The residual of the Raft-log-delta block always carries a zero delta. -/
theorem applyRaftLogDelta_residual (env : ApplyEnv) (s : ReplicaMuState)
    (r : ReplicatedEvalResult) :
    (applyRaftLogDelta env s r).2 = { r with RaftLogDelta := 0 } := by
  by_cases hd : r.RaftLogDelta ≠ 0
  · simp [applyRaftLogDelta, hd]
  · obtain ⟨State, Split, Merge, CC, ILR, TS, DD, Delta, CR, RLD, SST, SC, PLP, BR⟩ := r
    simp only [ne_eq, Decidable.not_not] at hd
    simp_all [applyRaftLogDelta]

set_option maxHeartbeats 4000000 in
/-- The residual of the trivial phase is exactly the trivially-cleared
projection of the incoming result. -/
theorem applyTrivialPhase_residual (env : ApplyEnv) (s : ReplicaMuState)
    (r : ReplicatedEvalResult) (rai lai : Nat) :
    (applyTrivialPhase env s r rai lai).2 = clearTrivialFields s.usingAppliedStateKey r := by
  obtain ⟨State, Split, Merge, CC, ILR, TS, DD, Delta, CR, RLD, SST, SC, PLP, BR⟩ := r
  cases State with
  | none =>
      simp [applyTrivialPhase, applyStateTrivial, applyRaftLogDelta_residual,
        clearTrivialFields]
  | some st =>
      obtain ⟨A1, A2, A3, A4, A5, A6, A7, A8, A9⟩ := st
      cases A5 <;> cases A8 <;> cases A9 <;> cases hu : s.usingAppliedStateKey <;>
        cases htr : env.truncateSideloaded <;>
          simp only [applyTrivialPhase, applyStateTrivial, applyNewTruncatedState,
            applyRaftLogDelta_residual, clearTrivialFields, hu, htr]

/-- C4 fails as written: a result carrying only a suggested compaction is
non-zero after excluding the stats delta, truncated state, and Raft-log
delta, yet the code clears suggested compactions (among other fields)
before computing `shouldAssert` and returns false. -/
theorem shouldAssert_trivialOnly_counterexample :
    handleReplicatedEvalResult leaseEquivTrue applyEnv0 sampleState
      { ReplicatedEvalResult.empty with SuggestedCompactions := [1] } 0 0 =
      .ok (sampleState, false) ∧
    nonTrivialPerClaim { ReplicatedEvalResult.empty with SuggestedCompactions := [1] } = true :=
  ⟨rfl, rfl⟩

/-- C4 amended: `shouldAssert` is true iff the result is non-zero after
clearing exactly what the code clears before the check — the observational
fields (lease-request marker, timestamp, previous-lease proposal),
block-reads, the MVCC stats delta, the truncated-state change, a
zero-valued legacy stats struct, the applied-state-key flag when the
replica already has it set, the Raft-log-size delta, and the suggested
compactions. -/
theorem shouldAssert_iff_clearTrivial (equiv : Lease → Lease → Bool) (env : ApplyEnv)
    (s : ReplicaMuState) (r : ReplicatedEvalResult) (rai lai : Nat) (s' : ReplicaMuState)
    (b : Bool) (res : ReplicatedEvalResult)
    (h : applyReplicatedEvalResult equiv env s r rai lai = .ok (s', b, res)) :
    b = (if clearTrivialFields s.usingAppliedStateKey r = ReplicatedEvalResult.empty
         then false else true) := by
  simp only [applyReplicatedEvalResult] at h
  cases hnt : applyNonTrivialPhase equiv env (applyTrivialPhase env s r rai lai).1
      (applyTrivialPhase env s r rai lai).2 with
  | error f => rw [hnt] at h; exact absurd h (by simp)
  | ok v =>
      obtain ⟨s₂, r₂⟩ := v
      rw [hnt] at h
      have h12 := Except.ok.inj h
      have hb := congrArg (fun x => x.2.1) h12
      simp only at hb
      rw [← hb, applyTrivialPhase_residual]

/-- Witness for the amended C4 at a concrete input: the zero result applies
with `shouldAssert = false`, matching its trivially-cleared projection
being zero. -/
theorem shouldAssert_iff_clearTrivial_witness :
    false = (if clearTrivialFields sampleState.usingAppliedStateKey ReplicatedEvalResult.empty =
        ReplicatedEvalResult.empty then false else true) :=
  shouldAssert_iff_clearTrivial leaseEquivTrue applyEnv0 sampleState ReplicatedEvalResult.empty
    0 0 sampleState false ReplicatedEvalResult.empty rfl

/-- An empty evaluator result used to instantiate theorems. -/
def emptyResult : Result := ⟨LocalResult.empty, ReplicatedEvalResult.empty, none, none⟩

/-- A benign evaluation environment (no error, empty batch) used to
instantiate theorems. -/
def sampleEvalEnv : EvalEnv :=
  { batchEmpty := true, batchRepr := [], ms := MVCCStats.empty, br := some 9,
    res := emptyResult, pErr := none, maybeSetCorrupt := fun e => e, maxOffset := 0,
    versionMVCCNetworkStats := true, versionRangeAppliedStateKey := false }

/-- C5: for a batch that evaluates without error (and has a non-zero
timestamp), the `needConsensus` flag returned by `evaluateProposal` is true
iff the write batch is non-empty, or the MVCC stats delta is non-zero, or
the replicated eval result is non-zero, or the clock's max offset is the
clockless sentinel. -/
theorem evaluateProposal_needConsensus (env : EvalEnv) (s : ReplicaMuState) (ba : BatchRequest)
    (hts : ba.Timestamp ≠ 0) (herr : env.pErr = none) :
    ∀ res nc e, evaluateProposal env s ba = .ok (res, nc, e) →
      (nc = true ↔ needConsensusSpec env) := by
  intro res nc e h
  simp only [evaluateProposal, if_neg hts, herr] at h
  have h12 := Except.ok.inj h
  have hnc := congrArg (fun x => x.2.1) h12
  simp only at hnc
  rw [← hnc]
  by_cases h1 : env.ms = MVCCStats.empty <;>
    by_cases h2 : env.res.Replicated = ReplicatedEvalResult.empty <;>
      by_cases h3 : env.maxOffset = ClocklessMaxOffset <;>
        cases hbe : env.batchEmpty <;>
          simp [needConsensusSpec, h1, h2, h3, hbe]

/-- Witness for C5 at a concrete input: an empty batch with zero delta, zero
replicated result, and a normal clock needs no consensus. -/
theorem evaluateProposal_needConsensus_witness :
    (false = true ↔ needConsensusSpec sampleEvalEnv) :=
  evaluateProposal_needConsensus sampleEvalEnv sampleState ⟨5, none, false⟩ (by decide) rfl
    (some { emptyResult with Local := { LocalResult.empty with Reply := some 9 } }) false none
    rfl

/-- C6: when evaluation returns an error (and the error/batch transaction
classification does not trip the fatal assertion), `evaluateProposal`
returns the result with the local half reduced to exactly the whitelisted
fields (detached intents, detached always-run ended transactions, metrics;
every other local field zero), the replicated half reset to zero,
`needConsensus = false`, and the (possibly corruption-wrapped) evaluation
error. -/
theorem evaluateProposal_errorWhitelist (env : EvalEnv) (s : ReplicaMuState) (ba : BatchRequest)
    (e : PErr) (hts : ba.Timestamp ≠ 0) (herr : env.pErr = some e)
    (hok : ¬((env.maybeSetCorrupt e).txn ≠ none ∧ ba.Txn = none)) :
    evaluateProposal env s ba =
      .ok (some { env.res with
          Local := { LocalResult.empty with
            Intents := some (env.res.Local.detachIntents),
            EndTxns := some (env.res.Local.detachEndTxns true),
            Metrics := env.res.Local.Metrics },
          Replicated := ReplicatedEvalResult.empty },
        false, some (env.maybeSetCorrupt e)) := by
  simp only [evaluateProposal, if_neg hts, herr]
  cases ht : (env.maybeSetCorrupt e).txn with
  | some t =>
      cases hb : ba.Txn with
      | none => exact absurd ⟨by simp [ht], hb⟩ hok
      | some bt => simp [ht, hb]
  | none => cases hb : ba.Txn <;> simp [ht, hb]

/-- An evaluation environment whose evaluator fails with a transactional
error, used to instantiate theorems. -/
def sampleErrEnv : EvalEnv := { sampleEvalEnv with pErr := some ⟨some 3, 7⟩ }

/-- Witness for C6 at a concrete input: a transactional batch whose
evaluation fails gets the whitelisted local result, a zero replicated half,
no consensus, and the error back. -/
theorem evaluateProposal_errorWhitelist_witness :
    evaluateProposal sampleErrEnv sampleState ⟨5, some 1, false⟩ =
      .ok (some { sampleErrEnv.res with
          Local := { LocalResult.empty with
            Intents := some (sampleErrEnv.res.Local.detachIntents),
            EndTxns := some (sampleErrEnv.res.Local.detachEndTxns true),
            Metrics := sampleErrEnv.res.Local.Metrics },
          Replicated := ReplicatedEvalResult.empty },
        false, some (sampleErrEnv.maybeSetCorrupt ⟨some 3, 7⟩)) :=
  evaluateProposal_errorWhitelist sampleErrEnv sampleState ⟨5, some 1, false⟩ ⟨some 3, 7⟩
    (by decide) rfl (by simp)
